import Mathlib

/-!
# Stek wallet ledger & bet settlement engine — formal model

A shallow embedding of the wallet ledger / bet settlement core of the
`stek` casino backend, as visible in the repository: the withdrawal guard
inserted by `src/backend/fix_cashier.py` into `cashier.service.ts`, the
wallet and house-edge configuration created by `createTenant`
(`src/patch_service.py`), the password generator patched into
`super-admin.service.ts`, and the mines reveal behaviour exercised by the
test in `src/backend/fix_mines_flaky.py`.  Monetary values (TypeScript
`Decimal`) are embedded as `Rat` (exact arithmetic).  Operations whose
implementation is not part of the patch scripts are modelled from the
specification and marked `Modelled from the spec:` in their doc comments.
-/

/-- Withdrawal-guard rejection (`BadRequestException` thrown in
`cashier.service.ts`): carries the rendered total, bonus and withdrawable
figures for user messaging. -/
structure GuardError where
  total : String
  bonus : String
  withdrawable : String
  deriving Repr, DecidableEq

/-- Render a nonnegative number of cents as a two-decimal string,
e.g. `8000 ↦ "80.00"`. -/
def centsToFixed (c : Nat) : String :=
  Nat.repr (c / 100) ++ "." ++
    (if c % 100 < 10 then "0" ++ Nat.repr (c % 100) else Nat.repr (c % 100))

/-- Whole number of cents in the absolute value of `q`, rounding ties up:
`⌊100 * |q| + 1/2⌋`, computed on the reduced numerator/denominator (for a
denominator `d > 0`, natural division by `2 * d` is the floor). -/
def centsAbs (q : Rat) : Nat := (200 * q.num.natAbs + q.den) / (2 * q.den)

/-- `Decimal.toFixed(2)` of decimal.js (default rounding ROUND_HALF_UP:
ties away from zero, hence ties up on `|q|` with the sign re-attached). -/
def toFixed2 (q : Rat) : String :=
  if q.num < 0 then "-" ++ centsToFixed (centsAbs q)
  else centsToFixed (centsAbs q)

/-- Wallet row for a (tenant, user, currency) triple.  Fields as created by
`createTenant` (`src/patch_service.py`): `balance` and `lockedBalance`
(created at 0) and `bonusBalance` (absent at creation; the cashier reads it
as `wallet.bonusBalance || 0`).  `reservedBets` records the betIds holding a
live stake reservation (spec §4.1: `reserveStake` is idempotent per betId). -/
structure Wallet where
  balance : Rat
  bonusBalance : Rat
  lockedBalance : Rat
  reservedBets : List Nat
  deriving Repr, DecidableEq

/-- `withdrawableBalance = currentBalance.minus(bonusBalance)` from the
guard in `fix_cashier.py`. -/
def Wallet.withdrawable (w : Wallet) : Rat := w.balance - w.bonusBalance

/-- The withdrawal guard inserted by `src/backend/fix_cashier.py` into
`cashier.service.ts`: read-only check that throws
`Insufficient withdrawable balance` when
`withdrawableBalance.lessThan(totalDeduction)` (the requested deduction),
rendering `Total`, `Bonus (non-withdrawable)` and `Withdrawable` with
`toFixed(2)`, the withdrawable figure floored to `"0.00"` when not
positive. -/
def withdrawal_guard (w : Wallet) (amount : Rat) : Option GuardError :=
  if w.balance - w.bonusBalance < amount then
    some { total := toFixed2 w.balance
           bonus := toFixed2 w.bonusBalance
           withdrawable :=
             if 0 < w.balance - w.bonusBalance then
               toFixed2 (w.balance - w.bonusBalance)
             else "0.00" }
  else none

/-- One cashier withdrawal attempt: the guard runs inside the same
transaction as the debit; a thrown guard error aborts the transaction, so
on rejection no balance field is written; on pass the debit removes the
amount from `balance`. -/
def requestWithdrawal (w : Wallet) (amount : Rat) : Except GuardError Wallet :=
  match withdrawal_guard w amount with
  | some e => .error e
  | none => .ok { w with balance := w.balance - amount }

/-- Post-state of a withdrawal attempt: a rejected (aborted) transaction
leaves the wallet at its last-committed state. -/
def withdrawOutcome (w : Wallet) (amount : Rat) : Wallet :=
  match requestWithdrawal w amount with
  | .error _ => w
  | .ok w2 => w2

/-- Claim C1: a withdrawal request of `amount` is rejected with
`InsufficientWithdrawableBalance` (carrying total/bonus/withdrawable
figures) exactly when `amount > max(balance - bonusBalance, 0)`, and on
rejection `balance` and `bonusBalance` are unchanged.  Stated for wallets
satisfying the data-model invariant `bonusBalance ≤ balance`. -/
theorem withdrawal_guard_spec (w : Wallet) (amount : Rat)
    (hbb : w.bonusBalance ≤ w.balance) :
    ((withdrawal_guard w amount).isSome ↔ amount > max (w.balance - w.bonusBalance) 0) ∧
    (∀ e, withdrawal_guard w amount = some e → requestWithdrawal w amount = .error e) ∧
    ((withdrawal_guard w amount).isSome → withdrawOutcome w amount = w) := by
  have hw : (0:Rat) ≤ w.balance - w.bonusBalance := sub_nonneg.mpr hbb
  have hmax : max (w.balance - w.bonusBalance) 0 = w.balance - w.bonusBalance :=
    max_eq_left hw
  unfold withdrawOutcome requestWithdrawal withdrawal_guard
  by_cases h : w.balance - w.bonusBalance < amount <;>
    simp [h, hmax]

/-- Scenario A evaluated: at balance 100, bonus 20, a withdrawal request of
90 trips the guard, rendering total "100.00", bonus "20.00", withdrawable
"80.00". -/
theorem guard_scenarioA :
    withdrawal_guard (Wallet.mk 100 20 0 []) 90 =
      some { total := "100.00", bonus := "20.00", withdrawable := "80.00" } := by
  unfold withdrawal_guard
  norm_num
  decide

theorem guard_scenarioA_isSome :
    (withdrawal_guard (Wallet.mk 100 20 0 []) 90).isSome := by
  rw [guard_scenarioA]
  rfl

theorem scenarioA_withdrawable : Wallet.withdrawable (Wallet.mk 100 20 0 []) = 80 := by
  unfold Wallet.withdrawable
  norm_num

theorem scenarioA_bonus_le :
    (Wallet.mk 100 20 0 []).bonusBalance ≤ (Wallet.mk 100 20 0 []).balance := by
  norm_num

/-- Concrete witness for C1 (Scenario A): wallet balance 100, bonus 20,
withdrawable 80; a 90 withdrawal is rejected and the wallet is unchanged. -/
theorem withdrawal_guard_spec_witness :
    Wallet.withdrawable (Wallet.mk 100 20 0 []) = 80 ∧
    withdrawOutcome (Wallet.mk 100 20 0 []) 90 = Wallet.mk 100 20 0 [] ∧
    ((withdrawal_guard (Wallet.mk 100 20 0 []) 90).isSome ↔
      (90:Rat) > max ((100:Rat) - 20) 0) :=
  ⟨scenarioA_withdrawable,
   (withdrawal_guard_spec (Wallet.mk 100 20 0 []) 90 scenarioA_bonus_le).2.2
     guard_scenarioA_isSome,
   (withdrawal_guard_spec (Wallet.mk 100 20 0 []) 90 scenarioA_bonus_le).1⟩

/-- Claim C10: the rejection message never shows a negative withdrawable
figure: the withdrawable string carried by the guard error is the
two-decimal rendering of `balance - bonusBalance` when that difference is
positive, and the literal `"0.00"` otherwise. -/
theorem withdrawal_guard_withdrawable_string (w : Wallet) (amount : Rat)
    (e : GuardError) (h : withdrawal_guard w amount = some e) :
    e.withdrawable =
      if 0 < w.balance - w.bonusBalance then
        toFixed2 (w.balance - w.bonusBalance)
      else "0.00" := by
  unfold withdrawal_guard at h
  split_ifs at h with h1 h2
  · cases h
    simp [h2]
  · cases h
    simp [h2]

/-- Concrete witness for C10: at balance 100, bonus 20, amount 90 the guard
rejects and the withdrawable string follows the claimed rendering rule. -/
theorem withdrawal_guard_withdrawable_string_witness :
    GuardError.withdrawable
        { total := "100.00", bonus := "20.00", withdrawable := "80.00" } =
      (if 0 < (100:Rat) - 20 then toFixed2 ((100:Rat) - 20) else "0.00") :=
  withdrawal_guard_withdrawable_string (Wallet.mk 100 20 0 []) 90
    { total := "100.00", bonus := "20.00", withdrawable := "80.00" } guard_scenarioA

/-- Payout portion for `credit` (spec §4.1): CASH increases `balance` only,
BONUS additionally increases the sticky `bonusBalance`. -/
inductive Portion
  | CASH
  | BONUS
  deriving Repr, DecidableEq

/-- Wallet Store error taxonomy (spec §7). -/
inductive WalletError
  | InsufficientFunds
  | InvalidAmount
  | WithdrawalExceedsAvailable
  | NotReserved
  deriving Repr, DecidableEq

/-- Modelled from the spec: `reserveStake` (§4.1) — the Wallet Store itself
is not among the patch scripts.  Fails with `InsufficientFunds` unless
`balance - lockedBalance ≥ amount`; on success increments `lockedBalance`
and records the betId; idempotent per betId (a replayed reservation is a
no-op, not a double debit). -/
def Wallet.reserveStake (w : Wallet) (betId : Nat) (amount : Rat) :
    Except WalletError Wallet :=
  if betId ∈ w.reservedBets then .ok w
  else if w.balance - w.lockedBalance ≥ amount then
    .ok { w with lockedBalance := w.lockedBalance + amount
                 reservedBets := betId :: w.reservedBets }
  else .error .InsufficientFunds

/-- Modelled from the spec: `settleStake` (§4.1) — not among the patch
scripts.  Must be paired with a prior `reserveStake`, so it requires the
reservation for `betId` to exist and the lock to cover `amount`; it
releases the lock and removes `amount` from `balance` (stake consumed).
The sticky bonus is "consumed only through play" (§4.4), so when consuming
the stake leaves less balance than `bonusBalance`, the bonus is reduced to
the remaining balance (the §3 invariant `bonusBalance ≤ balance` is
load-bearing and universal, spec §9). -/
def Wallet.settleStake (w : Wallet) (betId : Nat) (amount : Rat) :
    Except WalletError Wallet :=
  if betId ∈ w.reservedBets ∧ amount ≤ w.lockedBalance then
    .ok { balance := w.balance - amount
          bonusBalance := min w.bonusBalance (w.balance - amount)
          lockedBalance := w.lockedBalance - amount
          reservedBets := w.reservedBets.erase betId }
  else .error .NotReserved

/-- Modelled from the spec: `credit` (§4.1) — not among the patch scripts.
Fails with `InvalidAmount` on negative input; CASH increases `balance`
only; BONUS increases both `balance` and `bonusBalance` by the same
amount. -/
def Wallet.credit (w : Wallet) (amount : Rat) (portion : Portion) :
    Except WalletError Wallet :=
  if amount < 0 then .error .InvalidAmount
  else
    match portion with
    | .CASH => .ok { w with balance := w.balance + amount }
    | .BONUS => .ok { w with balance := w.balance + amount
                             bonusBalance := w.bonusBalance + amount }

/-- Modelled from the spec: `debitForWithdrawal` (§4.1) — not among the
patch scripts.  Only reachable after the Withdrawal Guard (§4.5) passes
(`amount ≤ max(balance - bonusBalance, 0)`); `lockedBalance` is excluded
from withdrawal (§3); drawing `balance` below the bonus floor is rejected
with `WithdrawalExceedsAvailable` rather than ever reducing
`bonusBalance`. -/
def Wallet.debitForWithdrawal (w : Wallet) (amount : Rat) :
    Except WalletError Wallet :=
  if amount > max (w.balance - w.bonusBalance) 0 then
    .error .InsufficientFunds
  else if amount > w.balance - w.lockedBalance then
    .error .WithdrawalExceedsAvailable
  else if w.balance - amount < w.bonusBalance then
    .error .WithdrawalExceedsAvailable
  else .ok { w with balance := w.balance - amount }

/-- One Wallet Store operation (spec §4.1); settlement uses `settle`
followed by `credit`, and the distribution pipeline's wallet effect is a
BONUS-portion `credit` (§4.4). -/
inductive WalletOp
  | reserve (betId : Nat) (amount : Rat)
  | settle (betId : Nat) (amount : Rat)
  | credit (amount : Rat) (portion : Portion)
  | withdraw (amount : Rat)

/-- Apply one operation; a failed operation aborts its transaction and
leaves the wallet at its last-committed state (spec §7). -/
def Wallet.applyOp (w : Wallet) (op : WalletOp) : Wallet :=
  match op with
  | .reserve betId amount =>
    match w.reserveStake betId amount with
    | .ok w2 => w2
    | .error _ => w
  | .settle betId amount =>
    match w.settleStake betId amount with
    | .ok w2 => w2
    | .error _ => w
  | .credit amount portion =>
    match w.credit amount portion with
    | .ok w2 => w2
    | .error _ => w
  | .withdraw amount =>
    match w.debitForWithdrawal amount with
    | .ok w2 => w2
    | .error _ => w

/-- Run a sequence of Wallet Store operations. -/
def Wallet.run (w : Wallet) (ops : List WalletOp) : Wallet :=
  ops.foldl Wallet.applyOp w

/-- Wallet as created by `createTenant` (`src/patch_service.py`):
`balance: 0, lockedBalance: 0`, no `bonusBalance` (read as 0), no
reservations. -/
def initialWallet : Wallet :=
  { balance := 0, bonusBalance := 0, lockedBalance := 0, reservedBets := [] }

/-- The wallet data-model invariant (spec §3):
`0 ≤ bonusBalance ≤ balance` and `lockedBalance ≤ balance`. -/
def Wallet.Invariant (w : Wallet) : Prop :=
  0 ≤ w.bonusBalance ∧ w.bonusBalance ≤ w.balance ∧ w.lockedBalance ≤ w.balance

/-- Each Wallet Store operation preserves the data-model invariant. -/
theorem Wallet.applyOp_invariant (w : Wallet) (op : WalletOp) (h : w.Invariant) :
    (w.applyOp op).Invariant := by
  obtain ⟨h0, hb, hl⟩ := h
  cases op with
  | reserve betId amount =>
    simp only [Wallet.applyOp, Wallet.reserveStake]
    split_ifs with h1 h2
    · exact ⟨h0, hb, hl⟩
    · exact ⟨h0, hb, by dsimp only; linarith⟩
    · exact ⟨h0, hb, hl⟩
  | settle betId amount =>
    simp only [Wallet.applyOp, Wallet.settleStake]
    split_ifs with h1
    · obtain ⟨hmem, hle⟩ := h1
      exact ⟨le_min h0 (by linarith), min_le_right _ _, by dsimp only; linarith⟩
    · exact ⟨h0, hb, hl⟩
  | credit amount portion =>
    simp only [Wallet.applyOp, Wallet.credit]
    split_ifs with h1
    · exact ⟨h0, hb, hl⟩
    · push_neg at h1
      cases portion with
      | CASH => exact ⟨h0, by dsimp only; linarith, by dsimp only; linarith⟩
      | BONUS =>
        exact ⟨by dsimp only; linarith, by dsimp only; linarith, by dsimp only; linarith⟩
  | withdraw amount =>
    simp only [Wallet.debitForWithdrawal, Wallet.applyOp]
    split_ifs with h1 h2 h3
    · exact ⟨h0, hb, hl⟩
    · exact ⟨h0, hb, hl⟩
    · exact ⟨h0, hb, hl⟩
    · push_neg at h2 h3
      exact ⟨h0, by dsimp only; linarith, by dsimp only; linarith⟩

/-- Claim C2: starting from the wallet `createTenant` creates, after every
sequence of Wallet Store operations (stake reservation, stake settlement,
payout/distribution credits, withdrawal debits) the invariants
`0 ≤ bonusBalance ≤ balance` and `lockedBalance ≤ balance` hold. -/
theorem wallet_invariant_all_ops (ops : List WalletOp) :
    (initialWallet.run ops).Invariant := by
  suffices h : ∀ (w : Wallet), w.Invariant → (w.run ops).Invariant from
    h _ ⟨le_refl 0, le_refl 0, le_refl 0⟩
  induction ops with
  | nil => exact fun w hw => hw
  | cons op rest ih => exact fun w hw => ih _ (Wallet.applyOp_invariant w op hw)

/-- Claim C3: for a settled bet — `settleStake` for the stake followed by
`credit` for the payout — `balance_after = balance_before - stake + payout`
exactly; of the payout, only the BONUS portion increases `bonusBalance`:
a CASH credit increases `balance` only, a BONUS credit increases `balance`
and `bonusBalance` by the same amount, and `credit` fails with
`InvalidAmount` on negative input. -/
theorem settled_bet_conservation :
    (∀ (w w1 w2 : Wallet) (betId : Nat) (stake payout : Rat) (portion : Portion),
      w.settleStake betId stake = .ok w1 → w1.credit payout portion = .ok w2 →
      w2.balance = w.balance - stake + payout) ∧
    (∀ (w w2 : Wallet) (amount : Rat),
      w.credit amount .CASH = .ok w2 →
      w2.balance = w.balance + amount ∧ w2.bonusBalance = w.bonusBalance) ∧
    (∀ (w w2 : Wallet) (amount : Rat),
      w.credit amount .BONUS = .ok w2 →
      w2.balance = w.balance + amount ∧ w2.bonusBalance = w.bonusBalance + amount) ∧
    (∀ (w : Wallet) (amount : Rat) (portion : Portion),
      amount < 0 → w.credit amount portion = .error .InvalidAmount) := by
  refine ⟨?_, ?_, ?_, ?_⟩
  · intro w w1 w2 betId stake payout portion hs hc
    unfold Wallet.settleStake at hs
    unfold Wallet.credit at hc
    split_ifs at hs
    cases hs
    split_ifs at hc
    cases portion <;> cases hc <;> dsimp only
  · intro w w2 amount hc
    unfold Wallet.credit at hc
    split_ifs at hc
    cases hc
    exact ⟨rfl, rfl⟩
  · intro w w2 amount hc
    unfold Wallet.credit at hc
    split_ifs at hc
    cases hc
    exact ⟨rfl, rfl⟩
  · intro w amount portion hneg
    unfold Wallet.credit
    rw [if_pos hneg]

/-- Settlement example evaluated: stake 10 settled on betId 5 from balance
100 with lock 10. -/
theorem settle_example :
    Wallet.settleStake (Wallet.mk 100 0 10 [5]) 5 10 = .ok (Wallet.mk 90 0 0 []) := by
  unfold Wallet.settleStake
  norm_num

/-- Credit example evaluated: CASH credit of 20 on balance 90. -/
theorem credit_example :
    Wallet.credit (Wallet.mk 90 0 0 []) 20 .CASH = .ok (Wallet.mk 110 0 0 []) := by
  unfold Wallet.credit
  norm_num

/-- Concrete witness for C3: settling stake 10 and crediting payout 20 on a
wallet of balance 100 lands exactly at `100 - 10 + 20 = 110`. -/
theorem settled_bet_conservation_witness :
    (110:Rat) = 100 - 10 + 20 :=
  settled_bet_conservation.1 (Wallet.mk 100 0 10 [5]) (Wallet.mk 90 0 0 [])
    (Wallet.mk 110 0 0 []) 5 10 20 Portion.CASH settle_example credit_example

/-- Claim C4: for a fresh betId, `reserveStake` fails with
`InsufficientFunds` exactly when `balance - lockedBalance < amount`, and on
success increments `lockedBalance` by `amount`. -/
theorem reserveStake_spec (w : Wallet) (betId : Nat) (amount : Rat)
    (hfresh : betId ∉ w.reservedBets) :
    (w.reserveStake betId amount = .error .InsufficientFunds ↔
      w.balance - w.lockedBalance < amount) ∧
    (∀ w2, w.reserveStake betId amount = .ok w2 →
      w2.lockedBalance = w.lockedBalance + amount) := by
  unfold Wallet.reserveStake
  rw [if_neg hfresh]
  constructor
  · split_ifs with h
    · constructor
      · intro h2
        cases h2
      · intro h2
        exact absurd h2 (by linarith)
    · constructor
      · intro _
        exact not_le.mp h
      · intro _
        rfl
  · intro w2 h2
    split_ifs at h2 with h
    cases h2
    rfl

/-- Scenario B first reservation evaluated: balance 10, no lock, reserve 10
for betId 1. -/
theorem reserve_scenarioB1 :
    Wallet.reserveStake (Wallet.mk 10 0 0 []) 1 10 = .ok (Wallet.mk 10 0 10 [1]) := by
  unfold Wallet.reserveStake
  norm_num

/-- Concrete witness for C4 (Scenario B): reserving 10 on balance 10 makes
`lockedBalance` 10, and a second reservation of 5 fails exactly because
`balance - lockedBalance = 0 < 5`. -/
theorem reserveStake_spec_witness :
    (10:Rat) = 0 + 10 ∧
    ((Wallet.mk 10 0 10 [1]).reserveStake 2 5 = .error .InsufficientFunds ↔
      (10:Rat) - 10 < 5) :=
  ⟨(reserveStake_spec (Wallet.mk 10 0 0 []) 1 10 (by decide)).2
      (Wallet.mk 10 0 10 [1]) reserve_scenarioB1,
   (reserveStake_spec (Wallet.mk 10 0 10 [1]) 2 5 (by decide)).1⟩

/-- Claim C5: `reserveStake` is idempotent per betId — applying the same
reservation twice yields the same wallet state as applying it once, so a
replay after a crash is a no-op and never locks the stake a second time. -/
theorem reserveStake_idempotent (w : Wallet) (betId : Nat) (amount : Rat) :
    w.run [WalletOp.reserve betId amount, WalletOp.reserve betId amount] =
      w.run [WalletOp.reserve betId amount] := by
  have key : ∀ v : Wallet, betId ∈ v.reservedBets →
      v.applyOp (WalletOp.reserve betId amount) = v := by
    intro v hv
    simp [Wallet.applyOp, Wallet.reserveStake, hv]
  show Wallet.applyOp (Wallet.applyOp w (WalletOp.reserve betId amount))
      (WalletOp.reserve betId amount) = Wallet.applyOp w (WalletOp.reserve betId amount)
  by_cases hmem : betId ∈ w.reservedBets
  · rw [key w hmem]
    exact key w hmem
  · by_cases hfund : w.balance - w.lockedBalance ≥ amount
    · have h1 : Wallet.applyOp w (WalletOp.reserve betId amount) =
          { w with lockedBalance := w.lockedBalance + amount
                   reservedBets := betId :: w.reservedBets } := by
        simp [Wallet.applyOp, Wallet.reserveStake, hmem, hfund]
      rw [h1]
      exact key _ (List.mem_cons_self _ _)
    · have h1 : Wallet.applyOp w (WalletOp.reserve betId amount) = w := by
        simp [Wallet.applyOp, Wallet.reserveStake, hmem, hfund]
      rw [h1]
      exact h1

/-- Multi-step game-session status (spec §3 `ActiveGameSession`). -/
inductive GameStatus
  | ACTIVE
  | WON
  | LOST
  | CASHED_OUT
  deriving Repr, DecidableEq

/-- Modelled from the spec: the Fairness Oracle (§4.3) is not among the
patch scripts.  Outcome bytes are a pure function of
(serverSeed, clientSeed, nonce, stepIndex); the keyed hash is abstracted as
a deterministic polynomial mix of the seed bytes, the nonce and the step
index over a fixed prime modulus. -/
def oracleOutcome (serverSeed clientSeed : List Nat) (nonce stepIndex : Nat) : Nat :=
  (serverSeed ++ clientSeed ++ [nonce, stepIndex]).foldl
    (fun h b => (h * 1000003 + b + 1) % 2147483647) 17

/-- Modelled from the spec: hazard positions are drawn without replacement,
one oracle call per remaining draw (step index counts down); draw `i` picks
tile `oracleOutcome … i % |remaining|` among the not-yet-chosen tiles. -/
def drawHazards (ss cs : List Nat) (nonce : Nat) : Nat → List Nat → List Nat
  | 0, _ => []
  | k + 1, avail =>
    if avail.isEmpty then []
    else
      let idx := oracleOutcome ss cs nonce k % avail.length
      avail.getD idx 0 :: drawHazards ss cs nonce k (avail.eraseIdx idx)

/-- Modelled from the spec (§4.3): the full hazard map of a multi-step game
is a pure function of the seed triple and per-step oracle outcomes, so it
can be fixed at session creation and verified later. -/
def hazardMap (ss cs : List Nat) (nonce gridSize hazardCount : Nat) : List Nat :=
  drawHazards ss cs nonce hazardCount (List.range gridSize)

/-- In-flight multi-step game session (spec §3 `ActiveGameSession`):
configuration (grid size, hazard set), revealed tiles, current multiplier,
status, plus the bet it belongs to. -/
structure GameSession where
  status : GameStatus
  gridSize : Nat
  hazards : List Nat
  revealed : List Nat
  currentMultiplier : Rat
  betId : Nat
  stake : Rat
  deriving Repr, DecidableEq

/-- Modelled from the spec: session creation on place-bet for a multi-step
game — ACTIVE, hazard map fixed from the committed seeds, nothing revealed,
multiplier 1. -/
def startGame (ss cs : List Nat) (nonce gridSize hazardCount betId : Nat)
    (stake : Rat) : GameSession :=
  { status := .ACTIVE
    gridSize := gridSize
    hazards := hazardMap ss cs nonce gridSize hazardCount
    revealed := []
    currentMultiplier := 1
    betId := betId
    stake := stake }

/-- Modelled from the spec: per-step multiplier growth of a fair tile-reveal
game — after `k` safe reveals on an `n`-tile board with `m` hazards, the
next safe reveal multiplies the payout by `(n - k) / (n - m - k)`, the
inverse of the survival probability (the spec leaves exact paytables out of
scope; any fair paytable has this shape). -/
def stepFactor (n m k : Nat) : Rat := ((n : Rat) - k) / ((n : Rat) - m - k)

/-- Bet Settlement Coordinator errors relevant to `revealStep` (spec §7). -/
inductive GameError
  | NoActiveGame
  | SettlementFailed
  deriving Repr, DecidableEq

/-- Successor session of a safe reveal: the position joins `revealed` and
the multiplier grows by one step factor; status stays ACTIVE. -/
def safeStep (s : GameSession) (pos : Nat) : GameSession :=
  { s with revealed := pos :: s.revealed
           currentMultiplier := s.currentMultiplier *
             stepFactor s.gridSize s.hazards.length s.revealed.length }

/-- Modelled from the spec (§4.2 `revealStep`): fails with `NoActiveGame`
unless the session is ACTIVE (guards replay/double-submit); consults the
hazard map fixed at creation; on hazard, transitions the session to LOST
and settles the stake as lost (payout 0); on safe, updates multiplier and
revealed set, leaves the session ACTIVE and moves no money. -/
def revealStep (s : GameSession) (w : Wallet) (pos : Nat) :
    Except GameError (GameSession × Wallet) :=
  if s.status ≠ .ACTIVE then .error .NoActiveGame
  else if pos ∈ s.hazards then
    match w.settleStake s.betId s.stake with
    | .ok w2 => .ok ({ s with status := .LOST }, w2)
    | .error _ => .error .SettlementFailed
  else .ok (safeStep s pos, w)

/-- Claim C6: on an ACTIVE session, `revealStep` at a safe position leaves
the session ACTIVE, pushes the position onto `revealed` (length 1 after the
first safe reveal), raises `currentMultiplier` above 1 (given multiplier at
least 1, at least one hazard, and tiles remaining) and moves no money; at a
hazard position it transitions the session to LOST and settles the stake as
lost exactly once — any further reveal on a terminal session fails with
`NoActiveGame`. -/
theorem revealStep_spec (s : GameSession) (w : Wallet) (pos : Nat)
    (hact : s.status = .ACTIVE) :
    (pos ∉ s.hazards →
      revealStep s w pos = .ok (safeStep s pos, w) ∧
      (safeStep s pos).status = .ACTIVE ∧
      (safeStep s pos).revealed = pos :: s.revealed ∧
      (s.revealed = [] → (safeStep s pos).revealed.length = 1) ∧
      (1 ≤ s.currentMultiplier → 0 < s.hazards.length →
        s.hazards.length + s.revealed.length < s.gridSize →
        1 < (safeStep s pos).currentMultiplier)) ∧
    (∀ w2, pos ∈ s.hazards → w.settleStake s.betId s.stake = .ok w2 →
      revealStep s w pos = .ok ({ s with status := .LOST }, w2)) ∧
    (∀ s3 : GameSession, s3.status = .LOST → ∀ w3 pos2,
      revealStep s3 w3 pos2 = .error .NoActiveGame) := by
  refine ⟨?_, ?_, ?_⟩
  · intro hsafe
    refine ⟨?_, ?_, rfl, ?_, ?_⟩
    · unfold revealStep
      simp [hact, hsafe]
    · simp [safeStep, hact]
    · intro h0
      simp [safeStep, h0]
    · intro hmul hm hk
      have hden : (0:Rat) <
          (s.gridSize : Rat) - s.hazards.length - s.revealed.length := by
        have hcast : ((s.hazards.length + s.revealed.length : Nat) : Rat) <
            (s.gridSize : Rat) := by exact_mod_cast hk
        push_cast at hcast
        linarith
      have hm0 : (0:Rat) < (s.hazards.length : Rat) := by exact_mod_cast hm
      have hfac : 1 < stepFactor s.gridSize s.hazards.length s.revealed.length := by
        unfold stepFactor
        rw [lt_div_iff₀ hden]
        linarith
      show 1 < s.currentMultiplier *
        stepFactor s.gridSize s.hazards.length s.revealed.length
      nlinarith [hfac, hmul]
  · intro w2 hhaz hset
    unfold revealStep
    simp [hact, hhaz, hset]
  · intro s3 h3 w3 pos2
    unfold revealStep
    simp [h3]

/-- Scenario C fixture: mines-style session with 1 hazard in 25 tiles,
seeds ([1], [2]), nonce 3, betId 7, stake 10; its hazard map computes to
tile 19. -/
def minesSession : GameSession := startGame [1] [2] 3 25 1 7 10

/-- Wallet backing the Scenario C bet: stake 10 reserved for betId 7. -/
def minesWallet : Wallet := Wallet.mk 100 0 10 [7]

/-- Settling the Scenario C stake as lost, evaluated. -/
theorem settle_mines :
    Wallet.settleStake minesWallet 7 10 = .ok (Wallet.mk 90 0 0 []) := by
  unfold minesWallet Wallet.settleStake
  norm_num

/-- Concrete witness for C6 (Scenario C): tile 0 is safe — session stays
ACTIVE with one revealed tile and multiplier above 1 and the wallet is
untouched; tile 19 is the hazard — session becomes LOST with the stake
settled once; a reveal on the LOST session fails with `NoActiveGame`. -/
theorem revealStep_spec_witness :
    revealStep minesSession minesWallet 0 = .ok (safeStep minesSession 0, minesWallet) ∧
    (safeStep minesSession 0).revealed.length = 1 ∧
    1 < (safeStep minesSession 0).currentMultiplier ∧
    revealStep minesSession minesWallet 19 =
      .ok ({ minesSession with status := .LOST }, Wallet.mk 90 0 0 []) ∧
    revealStep { minesSession with status := .LOST } (Wallet.mk 90 0 0 []) 5 =
      .error .NoActiveGame :=
  ⟨((revealStep_spec minesSession minesWallet 0 rfl).1 (by decide)).1,
   ((revealStep_spec minesSession minesWallet 0 rfl).1 (by decide)).2.2.2.1 rfl,
   ((revealStep_spec minesSession minesWallet 0 rfl).1 (by decide)).2.2.2.2
     le_rfl (by decide) (by decide),
   (revealStep_spec minesSession minesWallet 19 rfl).2.1 (Wallet.mk 90 0 0 [])
     (by decide) settle_mines,
   (revealStep_spec minesSession minesWallet 0 rfl).2.2
     { minesSession with status := .LOST } rfl (Wallet.mk 90 0 0 []) 5⟩

/-- Claim C7: the Fairness Oracle is deterministic — identical
(serverSeed, clientSeed, nonce, stepIndex) inputs always produce identical
outcomes — and a multi-step session's full hazard map is fixed at creation
by the seed triple and step indices alone. -/
theorem oracle_deterministic (ss1 cs1 : List Nat) (n1 i1 : Nat)
    (ss2 cs2 : List Nat) (n2 i2 : Nat)
    (hss : ss1 = ss2) (hcs : cs1 = cs2) (hn : n1 = n2) (hi : i1 = i2) :
    oracleOutcome ss1 cs1 n1 i1 = oracleOutcome ss2 cs2 n2 i2 ∧
    (∀ (gridSize hazardCount betId : Nat) (stake : Rat),
      (startGame ss1 cs1 n1 gridSize hazardCount betId stake).hazards =
        hazardMap ss2 cs2 n2 gridSize hazardCount) := by
  subst hss
  subst hcs
  subst hn
  subst hi
  exact ⟨rfl, fun _ _ _ _ => rfl⟩

/-- Concrete witness for C7: equal seed triples and step index give the
same outcome, and the Scenario C session's hazard map is exactly the
oracle-derived map. -/
theorem oracle_deterministic_witness :
    oracleOutcome [1] [2] 3 0 = oracleOutcome [1] [2] 3 0 ∧
    (startGame [1] [2] 3 25 1 7 10).hazards = hazardMap [1] [2] 3 25 1 :=
  ⟨(oracle_deterministic [1] [2] 3 0 [1] [2] 3 0 rfl rfl rfl rfl).1,
   (oracle_deterministic [1] [2] 3 0 [1] [2] 3 0 rfl rfl rfl rfl).2 25 1 7 10⟩

/-- Tenant-scoped reward pool account (spec §3 `RewardPoolAccount`):
additive contributions from every settled bet's house-edge share, plus the
distributable balance consumed by external claim processes. -/
structure RewardPoolAccount where
  accumulatedContributions : Rat
  distributable : Rat
  deriving Repr, DecidableEq

/-- Terminal outcome of a settled bet (spec §3 `Bet.status`). -/
inductive BetOutcome
  | WON
  | LOST
  deriving Repr, DecidableEq

/-- Modelled from the spec (§4.4): the Reward Pool step of the distribution
pipeline runs for every settled bet —
`accumulatedContributions += stake * houseEdgeRate` — and takes no account
of the bet's outcome. -/
def RewardPoolAccount.contribute (p : RewardPoolAccount) (stake houseEdgeRate : Rat)
    (_outcome : BetOutcome) : RewardPoolAccount :=
  { p with accumulatedContributions :=
      p.accumulatedContributions + stake * houseEdgeRate }

/-- Per-game house-edge rates written by `createTenant`
(`src/patch_service.py`, `houseEdgeConfig`): every game 0.04. -/
def houseEdgeConfig : List (String × Rat) :=
  [("crash", 4/100), ("dice", 4/100), ("mines", 4/100), ("plinko", 4/100),
   ("limbo", 4/100), ("penalty", 4/100), ("olympus", 4/100), ("cardRush", 4/100)]

/-- Claim C8: every settled bet increases `accumulatedContributions` by
exactly `stake * houseEdgeRate`, independent of the bet's outcome; every
game rate in the tenant's `houseEdgeConfig` is 0.04, and at rate 0.04 and
stake 100 the increase is exactly 4 whether the bet is won or lost. -/
theorem rewardPool_contribution (p : RewardPoolAccount) (stake rate : Rat)
    (o : BetOutcome) :
    ((p.contribute stake rate o).accumulatedContributions =
      p.accumulatedContributions + stake * rate) ∧
    (∀ o2, p.contribute stake rate o = p.contribute stake rate o2) ∧
    (∀ g r, (g, r) ∈ houseEdgeConfig → r = 4/100) ∧
    ((p.contribute 100 (4/100) o).accumulatedContributions =
      p.accumulatedContributions + 4) := by
  refine ⟨rfl, fun o2 => rfl, ?_, ?_⟩
  · intro g r hmem
    unfold houseEdgeConfig at hmem
    simp only [List.mem_cons, List.not_mem_nil, or_false, Prod.mk.injEq] at hmem
    rcases hmem with h | h | h | h | h | h | h | h <;> exact h.2
  · show p.accumulatedContributions + (100:Rat) * (4/100) =
      p.accumulatedContributions + 4
    norm_num

/-- Concrete witness for C8 (Scenario D): from an empty pool, settlement at
rate 0.04 on stake 100 leaves exactly 4 accumulated, for a WON and for a
LOST bet alike. -/
theorem rewardPool_contribution_witness :
    ((RewardPoolAccount.mk 0 0).contribute 100 (4/100)
        BetOutcome.WON).accumulatedContributions = 0 + 4 ∧
    (RewardPoolAccount.mk 0 0).contribute 100 (4/100) BetOutcome.WON =
      (RewardPoolAccount.mk 0 0).contribute 100 (4/100) BetOutcome.LOST ∧
    ((4:Rat)/100) = 4/100 :=
  ⟨(rewardPool_contribution (RewardPoolAccount.mk 0 0) 100 (4/100)
      BetOutcome.WON).2.2.2,
   (rewardPool_contribution (RewardPoolAccount.mk 0 0) 100 (4/100)
      BetOutcome.WON).2.1 BetOutcome.LOST,
   (rewardPool_contribution (RewardPoolAccount.mk 0 0) 100 (4/100)
      BetOutcome.WON).2.2.1 "mines" (4/100)
     (List.mem_cons_of_mem _ (List.mem_cons_of_mem _ (List.mem_cons_self _ _)))⟩

/-- Character pool of `generateSecurePassword` (`src/patch_service.py` and
`src/patch_service2.py`): alphanumerics without the ambiguous characters
I, O, l, i, o, 0, 1. -/
def passwordChars : List Char :=
  "ABCDEFGHJKLMNPQRSTUVWXYZabcdefghjkmnpqrstuvwxyz23456789".toList

/-- Special characters drawn for position 11 of the password. -/
def passwordSpecials : List Char := "!@#$%".toList

/-- Decimal digits drawn for position 12 of the password. -/
def passwordDigits : List Char := "0123456789".toList

/-- `generateSecurePassword` patched into `super-admin.service.ts`: ten
draws from the main pool, then one of `!@#$%`, then one decimal digit.
`rand i` models the i-th `Math.floor(Math.random() * length)` draw;
reduction modulo the pool length keeps every draw sequence in range. -/
def generatePasswordChars (rand : Nat → Nat) : List Char :=
  (List.range 10).map
      (fun i => passwordChars.getD (rand i % passwordChars.length) 'A')
    ++ [passwordSpecials.getD (rand 10 % passwordSpecials.length) '!']
    ++ [passwordDigits.getD (rand 11 % passwordDigits.length) '0']

/-- The generated password as a string. -/
def generateSecurePassword (rand : Nat → Nat) : String :=
  String.mk (generatePasswordChars rand)

/-- An in-range `getD` lands in the list. -/
theorem getD_mod_mem (l : List Char) (d : Char) (n : Nat) (h : 0 < l.length) :
    l.getD (n % l.length) d ∈ l := by
  have hlt : n % l.length < l.length := Nat.mod_lt _ h
  rw [List.getD_eq_getElem?_getD, List.getElem?_eq_getElem hlt, Option.getD_some]
  exact List.getElem_mem hlt

/-- Claim C9: for every sequence of random draws, `generateSecurePassword`
returns exactly 12 characters: the first 10 from the ambiguity-free
alphanumeric pool (which indeed excludes I, O, l, i, o, 0 and 1), the 11th
one of `!@#$%`, and the 12th a decimal digit. -/
theorem generateSecurePassword_shape (rand : Nat → Nat) :
    (generateSecurePassword rand).length = 12 ∧
    (∀ c ∈ (generateSecurePassword rand).toList.take 10, c ∈ passwordChars) ∧
    (∃ c10 c11, (generateSecurePassword rand).toList.drop 10 = [c10, c11] ∧
      c10 ∈ passwordSpecials ∧ c11 ∈ passwordDigits) ∧
    ('I' ∉ passwordChars ∧ 'O' ∉ passwordChars ∧ 'l' ∉ passwordChars ∧
      'i' ∉ passwordChars ∧ 'o' ∉ passwordChars ∧
      '0' ∉ passwordChars ∧ '1' ∉ passwordChars) := by
  have htl : (generateSecurePassword rand).toList = generatePasswordChars rand := rfl
  have hlen10 : ((List.range 10).map
      (fun i => passwordChars.getD (rand i % passwordChars.length) 'A')).length = 10 := by
    simp
  refine ⟨?_, ?_, ?_, by decide⟩
  · show (generatePasswordChars rand).length = 12
    unfold generatePasswordChars
    simp
  · intro c hc
    rw [htl] at hc
    unfold generatePasswordChars at hc
    rw [List.append_assoc, List.take_left' hlen10] at hc
    obtain ⟨i, hi, rfl⟩ := List.mem_map.mp hc
    exact getD_mod_mem _ _ _ (by decide)
  · refine ⟨passwordSpecials.getD (rand 10 % passwordSpecials.length) '!',
      passwordDigits.getD (rand 11 % passwordDigits.length) '0', ?_, ?_, ?_⟩
    · rw [htl]
      unfold generatePasswordChars
      rw [List.append_assoc, List.drop_left' hlen10]
      rfl
    · exact getD_mod_mem _ _ _ (by decide)
    · exact getD_mod_mem _ _ _ (by decide)

/-- Concrete witness for C9: the all-zero draw sequence yields a 12-character
password whose first character is in the pool, and the pool indeed excludes
the ambiguous capital I. -/
theorem generateSecurePassword_shape_witness :
    (generateSecurePassword (fun _ => 0)).length = 12 ∧
    'A' ∈ passwordChars ∧
    'I' ∉ passwordChars :=
  ⟨(generateSecurePassword_shape (fun _ => 0)).1,
   (generateSecurePassword_shape (fun _ => 0)).2.1 'A' (by decide),
   (generateSecurePassword_shape (fun _ => 0)).2.2.2.1⟩
